import Mathlib

/-!
Verification of the image normalization and masked-edit orchestration pipeline
of the room-planter repository: the `POST` route handler and its helper
functions `createMask`, `convertToSquarePNG` and `fetchImageAsBase64`.

Images are embedded as pixel-sampling functions over rational coordinates;
the node-canvas drawing primitives (`clearRect`, `fillRect`, `drawImage`)
become the corresponding coordinate transformations.  The effectful steps of
the `POST` handler (JSON body parsing, image decoding, file writes, the
external edit call, the result fetch, file unlinks) are driven by an
environment `Env` recording the outcome of each external interaction, and the
temp-file backing store is an explicit list of existing paths.
-/

namespace RoomPlanter

/-! ## Pixel model -/

/-- An RGBA color with 8-bit channels, as produced by the node-canvas 2d
context. -/
structure Color where
  r : ℕ
  g : ℕ
  b : ℕ
  a : ℕ
deriving DecidableEq, Repr

/-- The fully transparent pixel left by `clearRect`. -/
def Color.transparent : Color := ⟨0, 0, 0, 0⟩

/-- The opaque white pixel painted when the context fillStyle is set to white. -/
def Color.white : Color := ⟨255, 255, 255, 255⟩

/-- Pixel function of the mask canvas built by `createMask(width, height)`:
`ctx.clearRect(0, 0, width, height)` leaves every pixel fully transparent and
`ctx.fillRect(0, height * 0.7, width, height * 0.3)` paints opaque white over
the rectangle `x ∈ [0, width), y ∈ [height * 0.7, height * 0.7 + height * 0.3)`. -/
def createMask (width height : ℚ) (x y : ℚ) : Color :=
  if 0 ≤ x ∧ x < width ∧ height * (7/10) ≤ y ∧ y < height * (7/10) + height * (3/10) then
    Color.white
  else
    Color.transparent

/-- A decoded raster image (the value produced by `loadImage`): its intrinsic
dimensions and a pixel-sampling function over rational coordinates. -/
structure InputImage where
  width : ℕ
  height : ℕ
  pixel : ℚ → ℚ → Color

/-- A canvas raster produced by the 2d context. -/
structure CanvasImage where
  width : ℕ
  height : ℕ
  pixel : ℚ → ℚ → Color

/-- Source-over compositing of a source pixel onto the opaque white backdrop
painted by `ctx.fillRect(0, 0, 1024, 1024)`: any source alpha is flattened
against white and the result is fully opaque. -/
def flattenOverWhite (c : Color) : Color :=
  ⟨(c.r * c.a + 255 * (255 - c.a)) / 255,
   (c.g * c.a + 255 * (255 - c.a)) / 255,
   (c.b * c.a + 255 * (255 - c.a)) / 255,
   255⟩

/-- The quantity `size = Math.min(img.width, img.height)` of `convertToSquarePNG`. -/
def cropSide (img : InputImage) : ℚ := min (img.width : ℚ) (img.height : ℚ)

/-- The crop origin `x = (img.width - size) / 2` of `convertToSquarePNG`. -/
def cropX (img : InputImage) : ℚ := ((img.width : ℚ) - cropSide img) / 2

/-- The crop origin `y = (img.height - size) / 2` of `convertToSquarePNG`. -/
def cropY (img : InputImage) : ℚ := ((img.height : ℚ) - cropSide img) / 2

/-- The canvas built by `convertToSquarePNG`: a 1024×1024 canvas, filled with
opaque white, onto which `ctx.drawImage(img, x, y, size, size, 0, 0, 1024, 1024)`
draws the source rectangle of side `size` at `(x, y)` scaled onto the full
destination rectangle `(0, 0, 1024, 1024)`.  A destination pixel `(px, py)`
therefore samples the source at `(x + px * size / 1024, y + py * size / 1024)`,
composited over the white background. -/
def convertToSquarePNG (img : InputImage) : CanvasImage :=
  { width := 1024
    height := 1024
    pixel := fun px py =>
      if 0 ≤ px ∧ px < 1024 ∧ 0 ≤ py ∧ py < 1024 then
        flattenOverWhite
          (img.pixel (cropX img + px * cropSide img / 1024)
            (cropY img + py * cropSide img / 1024))
      else
        Color.white }

/-! ## Byte and string model: base64 encoding and the comma split -/

/-- The standard base64 alphabet used by the base64 mode of `Buffer.toString`. -/
def base64Chars : List Char :=
  "ABCDEFGHIJKLMNOPQRSTUVWXYZabcdefghijklmnopqrstuvwxyz0123456789+/".data

/-- The base64 digit for a 6-bit value. -/
def base64Char (i : ℕ) : Char := base64Chars.getD i 'A'

/-- Standard padded base64 of a byte sequence, the encoding produced by
the base64 mode of `Buffer.toString` on `Buffer.from(arrayBuffer)`. -/
def encodeBase64 : List ℕ → String
  | [] => ""
  | [b1] =>
    ⟨[base64Char (b1 % 256 / 4), base64Char (b1 % 4 * 16), '=', '=']⟩
  | [b1, b2] =>
    ⟨[base64Char (b1 % 256 / 4), base64Char (b1 % 4 * 16 + b2 % 256 / 16),
      base64Char (b2 % 16 * 4), '=']⟩
  | b1 :: b2 :: b3 :: rest =>
    ⟨[base64Char (b1 % 256 / 4), base64Char (b1 % 4 * 16 + b2 % 256 / 16),
      base64Char (b2 % 16 * 4 + b3 % 256 / 64), base64Char (b3 % 64)]⟩ ++
    encodeBase64 rest

/-- Splits a character list at commas; helper for the JavaScript comma
split. -/
def splitCommaAux : List Char → List Char → List (List Char)
  | [], acc => [acc.reverse]
  | c :: cs, acc =>
    if c = ',' then acc.reverse :: splitCommaAux cs [] else splitCommaAux cs (c :: acc)

/-- The JavaScript split of a string at commas. -/
def jsSplitComma (s : String) : List String :=
  (splitCommaAux s.data []).map (fun l => ⟨l⟩)

/-- Numeric value of a decimal digit character. -/
def digitVal (c : Char) : ℕ := c.toNat - 48

/-! ## The request/response data model of the `POST` route -/

/-- A JavaScript `Error` as inspected by the catch block of the route: its
`message` plus the optional `code` and `status` fields the handler reads. -/
structure JsError where
  message : String
  code : Option String
  status : Option ℕ
deriving DecidableEq, Repr

/-- A thrown JavaScript value: either an `Error` instance or any other
value (the `instanceof Error` test distinguishes them). -/
inductive Thrown where
  | err : JsError → Thrown
  | value : Thrown
deriving DecidableEq, Repr

/-- The request body after `(await req.json()) as EditPlantRequest`: the cast
performs no validation, so either declared field may be absent. -/
structure RequestBody where
  image : Option String
  imageType : Option String
deriving DecidableEq, Repr

/-- One entry of the `data` array of the OpenAI edit response; its `url` may
be absent. -/
structure EditDatum where
  url : Option String
deriving DecidableEq, Repr

/-- The OpenAI `images.edit` response as read by the handler. -/
structure EditResponse where
  data : List EditDatum
deriving DecidableEq, Repr

/-- The transport response observed by `fetch(url)` inside
`fetchImageAsBase64`: the `ok`, `status` and `statusText` fields and the
`arrayBuffer` bytes. -/
structure FetchResponse where
  ok : Bool
  status : ℕ
  statusText : String
  bytes : List ℕ
deriving DecidableEq, Repr

/-- The body of a `NextResponse.json(...)`: either the success payload
`{ imageUrl }` or the structured error `{ error }`. -/
inductive RespBody where
  | success : String → RespBody
  | failure : String → RespBody
deriving DecidableEq, Repr

/-- A `NextResponse`: JSON body plus HTTP status (200 when defaulted). -/
structure JsResponse where
  body : RespBody
  status : ℕ
deriving DecidableEq, Repr

deriving instance DecidableEq for Except
deriving instance Repr for Except

/-- Outcomes of every external interaction of one `POST` invocation: the two
`Date.now()` reads, the JSON body parse, the image decode inside
`convertToSquarePNG`, the mask canvas build, the two `fs.writeFileSync`
calls, the `openai.images.edit` call, the transport `fetch` of the result
URL, and whether each `fs.unlinkSync` in the finally block throws. -/
structure Env where
  tmpdir : String
  now1 : ℕ
  now2 : ℕ
  parseResult : Except Thrown RequestBody
  convertResult : Except Thrown Unit
  maskResult : Except Thrown Unit
  writeTempResult : Except Thrown Unit
  writeMaskResult : Except Thrown Unit
  editResult : Except Thrown EditResponse
  fetchResult : Except Thrown FetchResponse
  unlinkTempFails : Bool
  unlinkMaskFails : Bool
deriving DecidableEq, Repr

/-- The join `path.join(dir, name)` for a plain relative name. -/
def pathJoin (dir name : String) : String := dir ++ "/" ++ name

/-- The staged location of the normalized image, named room-, then the
first `Date.now()` read, then .png, joined under `os.tmpdir()`. -/
def tempFilePath (env : Env) : String :=
  pathJoin env.tmpdir ("room-" ++ toString env.now1 ++ ".png")

/-- The staged location of the mask, named mask-, then the second
`Date.now()` read, then .png, joined under `os.tmpdir()`. -/
def maskFilePath (env : Env) : String :=
  pathJoin env.tmpdir ("mask-" ++ toString env.now2 ++ ".png")

/-- The `TypeError` raised by reading `.length` of an absent `image` field. -/
def undefinedLengthError : JsError :=
  ⟨"Cannot read properties of undefined (reading \x27length\x27)", none, none⟩

/-- The body of `fetchImageAsBase64` applied to the observed transport response:
throws when `response.ok` is false, base64-encodes the fetched bytes, throws
when the encoding is empty, and otherwise returns the
`data:image/png;base64,` data-URI.  Its catch block only logs and rethrows. -/
def fetchImageAsBase64 (r : FetchResponse) : Except Thrown String :=
  if r.ok then
    let base64 := encodeBase64 r.bytes
    if base64.length = 0 then
      .error (.err ⟨"Generated image is empty", none, none⟩)
    else
      .ok ("data:image/png;base64," ++ base64)
  else
    .error (.err ⟨"Failed to fetch image: " ++ toString r.status ++ " " ++ r.statusText,
      none, none⟩)

/-- The `try` block of `POST`, threading the set of existing temp files:
parse the body, read `image`, convert the image, build the mask, write both
temp files, call the edit service, extract `data[0]?.url`, fetch the result,
and validate the returned data-URI.  Returns the successful response or the
thrown value, together with the backing store contents at exit. -/
def tryBlock (env : Env) (temp mask : String) (fs : List String) :
    Except Thrown JsResponse × List String :=
  match env.parseResult with
  | .error e => (.error e, fs)
  | .ok body =>
    match body.image with
    | none => (.error (.err undefinedLengthError), fs)
    | some _image =>
      match env.convertResult with
      | .error e => (.error e, fs)
      | .ok _ =>
        match env.maskResult with
        | .error e => (.error e, fs)
        | .ok _ =>
          match env.writeTempResult with
          | .error e => (.error e, fs)
          | .ok _ =>
            let fs1 := fs.insert temp
            match env.writeMaskResult with
            | .error e => (.error e, fs1)
            | .ok _ =>
              let fs2 := fs1.insert mask
              match env.editResult with
              | .error e => (.error e, fs2)
              | .ok response =>
                match (response.data.get? 0).bind EditDatum.url with
                | none => (.error (.err ⟨"No image URL received", none, none⟩), fs2)
                | some _imageUrl =>
                  match env.fetchResult with
                  | .error e => (.error e, fs2)
                  | .ok r =>
                    match fetchImageAsBase64 r with
                    | .error e => (.error e, fs2)
                    | .ok base64Image =>
                      if "data:image/png;base64,".data.isPrefixOf base64Image.data then
                        match (jsSplitComma base64Image).get? 1 with
                        | none =>
                          (.error (.err ⟨"Invalid or corrupted image data received",
                            none, none⟩), fs2)
                        | some base64Data =>
                          if base64Data.length < 100 then
                            (.error (.err ⟨"Invalid or corrupted image data received",
                              none, none⟩), fs2)
                          else
                            (.ok ⟨.success base64Image, 200⟩, fs2)
                      else
                        (.error (.err ⟨"Invalid image format received", none, none⟩), fs2)

/-- The catch block of `POST`: a thrown `Error` whose `code` is
`billing_hard_limit_reached` becomes a 402 with the retry-later message; any
other `Error` keeps its message with `err.status ?? 500`; a thrown non-Error
value becomes a generic 500. -/
def catchHandler : Thrown → JsResponse
  | .err e =>
    if e.code = some "billing_hard_limit_reached" then
      ⟨.failure "OpenAI API billing limit reached. Please try again later.", 402⟩
    else
      ⟨.failure e.message, e.status.getD 500⟩
  | .value => ⟨.failure "Failed to edit image", 500⟩

/-- The `finally` block of `POST`: unlink each temp file that exists, in
order, inside a `try` whose own catch only logs — so a throwing first unlink
skips the second, and no cleanup failure escapes. -/
def cleanup (env : Env) (temp mask : String) (fs : List String) : List String :=
  if temp ∈ fs then
    if env.unlinkTempFails then fs
    else
      let fs1 := fs.filter (fun p => p ≠ temp)
      if mask ∈ fs1 then
        if env.unlinkMaskFails then fs1 else fs1.filter (fun p => p ≠ mask)
      else fs1
  else
    if mask ∈ fs then
      if env.unlinkMaskFails then fs else fs.filter (fun p => p ≠ mask)
    else fs

/-- The `POST` route handler: compute the two temp paths, run the `try`
block, map a thrown value through the catch block, and run the `finally`
cleanup on the backing store. -/
def POST (env : Env) (fs : List String) : JsResponse × List String :=
  let temp := tempFilePath env
  let mask := maskFilePath env
  let res := tryBlock env temp mask fs
  let out : JsResponse :=
    match res.1 with
    | .ok r => r
    | .error t => catchHandler t
  (out, cleanup env temp mask res.2)

/-! ## Mask and normalizer theorems (C4, C3) -/

/-- C4: the synthesized mask is fully transparent strictly above the
`height * 0.7` line and fully opaque white on or below it, for every positive
width and height and every in-canvas pixel; the `0.7` / `0.3` split is a
fixed constant of the definition, taking no request data. -/
theorem createMask_band (W H : ℚ) (hW : 0 < W) (hH : 0 < H) (x y : ℚ)
    (hx0 : 0 ≤ x) (hxW : x < W) (hy0 : 0 ≤ y) (hyH : y < H) :
    (y < H * (7/10) → createMask W H x y = Color.transparent) ∧
    (H * (7/10) ≤ y → createMask W H x y = Color.white) := by
  constructor
  · intro hy
    unfold createMask
    rw [if_neg]
    rintro ⟨-, -, h, -⟩
    linarith
  · intro hy
    unfold createMask
    rw [if_pos]
    exact ⟨hx0, hxW, hy, by linarith⟩

/-- Witness for `createMask_band` at `W = 1024`, `H = 1024`, evaluating the
mask at a pixel of the protected region and a pixel of the editable band. -/
theorem createMask_band_witness :
    createMask 1024 1024 (3 : ℚ) (5 : ℚ) = Color.transparent ∧
    createMask 1024 1024 (3 : ℚ) (900 : ℚ) = Color.white := by
  constructor
  · exact (createMask_band 1024 1024 (by norm_num) (by norm_num) 3 5 (by norm_num)
      (by norm_num) (by norm_num) (by norm_num)).1 (by norm_num)
  · exact (createMask_band 1024 1024 (by norm_num) (by norm_num) 3 900 (by norm_num)
      (by norm_num) (by norm_num) (by norm_num)).2 (by norm_num)

/-- C3: for every decodable input image the output canvas is exactly
1024×1024; every in-canvas output pixel is the white-flattened sample of a
source point inside the centered `min(width,height)`-sided square (so the
output is opaque), and conversely every point of that centered square is hit
by some output pixel — the crop fills the canvas edge-to-edge. -/
theorem convertToSquarePNG_spec (img : InputImage)
    (hw : 0 < img.width) (hh : 0 < img.height) :
    (convertToSquarePNG img).width = 1024 ∧
    (convertToSquarePNG img).height = 1024 ∧
    (∀ px py : ℚ, 0 ≤ px → px < 1024 → 0 ≤ py → py < 1024 →
      ∃ u v : ℚ,
        cropX img ≤ u ∧ u < cropX img + cropSide img ∧
        cropY img ≤ v ∧ v < cropY img + cropSide img ∧
        (convertToSquarePNG img).pixel px py = flattenOverWhite (img.pixel u v) ∧
        ((convertToSquarePNG img).pixel px py).a = 255) ∧
    (∀ u v : ℚ, cropX img ≤ u → u < cropX img + cropSide img →
      cropY img ≤ v → v < cropY img + cropSide img →
      ∃ px py : ℚ, 0 ≤ px ∧ px < 1024 ∧ 0 ≤ py ∧ py < 1024 ∧
        (convertToSquarePNG img).pixel px py = flattenOverWhite (img.pixel u v)) := by
  have hside : 0 < cropSide img := by
    unfold cropSide
    have h1 : (0 : ℚ) < img.width := by exact_mod_cast hw
    have h2 : (0 : ℚ) < img.height := by exact_mod_cast hh
    exact lt_min h1 h2
  refine ⟨rfl, rfl, ?_, ?_⟩
  · intro px py hpx0 hpx hpy0 hpy
    refine ⟨cropX img + px * cropSide img / 1024, cropY img + py * cropSide img / 1024,
      ?_, ?_, ?_, ?_, ?_, ?_⟩
    · nlinarith
    · have : px * cropSide img < 1024 * cropSide img :=
        mul_lt_mul_of_pos_right hpx hside
      nlinarith
    · nlinarith
    · have : py * cropSide img < 1024 * cropSide img :=
        mul_lt_mul_of_pos_right hpy hside
      nlinarith
    · show (convertToSquarePNG img).pixel px py = _
      unfold convertToSquarePNG
      simp only
      rw [if_pos ⟨hpx0, hpx, hpy0, hpy⟩]
    · show ((convertToSquarePNG img).pixel px py).a = 255
      unfold convertToSquarePNG
      simp only
      rw [if_pos ⟨hpx0, hpx, hpy0, hpy⟩]
      rfl
  · intro u v hu0 hu hv0 hv
    have hpx0 : 0 ≤ (u - cropX img) * 1024 / cropSide img := by
      apply div_nonneg _ (le_of_lt hside)
      nlinarith
    have hpx : (u - cropX img) * 1024 / cropSide img < 1024 := by
      rw [div_lt_iff₀ hside]
      nlinarith
    have hpy0 : 0 ≤ (v - cropY img) * 1024 / cropSide img := by
      apply div_nonneg _ (le_of_lt hside)
      nlinarith
    have hpy : (v - cropY img) * 1024 / cropSide img < 1024 := by
      rw [div_lt_iff₀ hside]
      nlinarith
    refine ⟨(u - cropX img) * 1024 / cropSide img, (v - cropY img) * 1024 / cropSide img,
      hpx0, hpx, hpy0, hpy, ?_⟩
    show (convertToSquarePNG img).pixel _ _ = _
    unfold convertToSquarePNG
    simp only
    rw [if_pos ⟨hpx0, hpx, hpy0, hpy⟩]
    have hu' : cropX img + (u - cropX img) * 1024 / cropSide img * cropSide img / 1024 = u := by
      field_simp
    have hv' : cropY img + (v - cropY img) * 1024 / cropSide img * cropSide img / 1024 = v := by
      field_simp
    rw [hu', hv']

/-- Witness for `convertToSquarePNG_spec` on a concrete 4×2 image. -/
theorem convertToSquarePNG_spec_witness :
    0 < (InputImage.mk 4 2 (fun _ _ => Color.white)).width ∧
    0 < (InputImage.mk 4 2 (fun _ _ => Color.white)).height ∧
    ((convertToSquarePNG (InputImage.mk 4 2 (fun _ _ => Color.white))).width = 1024 ∧
     (convertToSquarePNG (InputImage.mk 4 2 (fun _ _ => Color.white))).height = 1024 ∧
     (∀ px py : ℚ, 0 ≤ px → px < 1024 → 0 ≤ py → py < 1024 →
       ∃ u v : ℚ,
         cropX (InputImage.mk 4 2 (fun _ _ => Color.white)) ≤ u ∧
         u < cropX (InputImage.mk 4 2 (fun _ _ => Color.white)) +
            cropSide (InputImage.mk 4 2 (fun _ _ => Color.white)) ∧
         cropY (InputImage.mk 4 2 (fun _ _ => Color.white)) ≤ v ∧
         v < cropY (InputImage.mk 4 2 (fun _ _ => Color.white)) +
            cropSide (InputImage.mk 4 2 (fun _ _ => Color.white)) ∧
         (convertToSquarePNG (InputImage.mk 4 2 (fun _ _ => Color.white))).pixel px py =
           flattenOverWhite ((InputImage.mk 4 2 (fun _ _ => Color.white)).pixel u v) ∧
         ((convertToSquarePNG (InputImage.mk 4 2 (fun _ _ => Color.white))).pixel px py).a = 255) ∧
     (∀ u v : ℚ,
       cropX (InputImage.mk 4 2 (fun _ _ => Color.white)) ≤ u →
       u < cropX (InputImage.mk 4 2 (fun _ _ => Color.white)) +
          cropSide (InputImage.mk 4 2 (fun _ _ => Color.white)) →
       cropY (InputImage.mk 4 2 (fun _ _ => Color.white)) ≤ v →
       v < cropY (InputImage.mk 4 2 (fun _ _ => Color.white)) +
          cropSide (InputImage.mk 4 2 (fun _ _ => Color.white)) →
       ∃ px py : ℚ, 0 ≤ px ∧ px < 1024 ∧ 0 ≤ py ∧ py < 1024 ∧
         (convertToSquarePNG (InputImage.mk 4 2 (fun _ _ => Color.white))).pixel px py =
           flattenOverWhite ((InputImage.mk 4 2 (fun _ _ => Color.white)).pixel u v))) :=
  ⟨by norm_num, by norm_num,
    convertToSquarePNG_spec (InputImage.mk 4 2 (fun _ _ => Color.white))
      (by norm_num) (by norm_num)⟩

/-! ## Decimal representation: `Nat.repr` is injective -/

theorem digitVal_digitChar (d : ℕ) (h : d < 10) :
    digitVal (Nat.digitChar d) = d := by
  interval_cases d <;> decide

theorem toDigitsCore_fuel :
    ∀ f1 f2 n ds, n < f1 → n < f2 →
      Nat.toDigitsCore 10 f1 n ds = Nat.toDigitsCore 10 f2 n ds := by
  intro f1
  induction f1 with
  | zero => intro f2 n ds h1 _; omega
  | succ f1 ih =>
    intro f2 n ds h1 h2
    cases f2 with
    | zero => omega
    | succ f2 =>
      simp only [Nat.toDigitsCore]
      by_cases hq : n / 10 = 0
      · simp [hq]
      · simp only [hq, if_false]
        apply ih <;> omega

theorem toDigitsCore_append :
    ∀ f n ds, n < f →
      Nat.toDigitsCore 10 f n ds = Nat.toDigitsCore 10 f n [] ++ ds := by
  intro f
  induction f with
  | zero => intro n ds h; omega
  | succ f ih =>
    intro n ds h
    simp only [Nat.toDigitsCore]
    by_cases hq : n / 10 = 0
    · simp [hq]
    · simp only [hq, if_false]
      have hlt : n / 10 < f := by omega
      rw [ih (n / 10) ((n % 10).digitChar :: ds) hlt, ih (n / 10) [(n % 10).digitChar] hlt]
      simp

theorem toDigits_eq (n : ℕ) :
    Nat.toDigits 10 n =
      if n < 10 then [Nat.digitChar n]
      else Nat.toDigits 10 (n / 10) ++ [Nat.digitChar (n % 10)] := by
  unfold Nat.toDigits
  conv_lhs => simp only [Nat.toDigitsCore]
  by_cases h : n < 10
  · have hq : n / 10 = 0 := Nat.div_eq_of_lt h
    simp [hq, Nat.mod_eq_of_lt h, h]
  · have hq : n / 10 ≠ 0 := by omega
    simp only [hq, if_false, if_neg h]
    rw [toDigitsCore_append n (n / 10) [(n % 10).digitChar] (by omega)]
    rw [toDigitsCore_fuel n (n / 10 + 1) (n / 10) [] (by omega) (by omega)]

theorem foldl_toDigits (n : ℕ) : ∀ acc : ℕ,
    (Nat.toDigits 10 n).foldl (fun a c => 10 * a + digitVal c) acc =
      acc * 10 ^ (Nat.toDigits 10 n).length + n := by
  induction n using Nat.strong_induction_on with
  | _ n ih =>
    intro acc
    rw [toDigits_eq n]
    by_cases h : n < 10
    · simp [h, List.foldl, digitVal_digitChar n h]
      ring
    · simp only [h, if_false]
      rw [List.foldl_append, List.length_append]
      have hlt : n / 10 < n := by omega
      rw [ih (n / 10) hlt acc]
      simp only [List.foldl, List.length_cons, List.length_nil]
      rw [digitVal_digitChar (n % 10) (by omega)]
      rw [pow_succ]
      ring_nf
      omega

theorem natRepr_injective (m n : ℕ) (h : Nat.repr m = Nat.repr n) : m = n := by
  have hdata : (Nat.toDigits 10 m) = (Nat.toDigits 10 n) := by
    have := congrArg String.data h
    simpa [Nat.repr, List.asString] using this
  have hm := foldl_toDigits m 0
  have hn := foldl_toDigits n 0
  rw [hdata] at hm
  rw [hm] at hn
  omega

/-! ## Base64 and `split(',')` facts -/

theorem encodeBase64_length (bs : List ℕ) :
    (encodeBase64 bs).length = 4 * ((bs.length + 2) / 3) := by
  induction bs using encodeBase64.induct with
  | case1 => rfl
  | case2 b1 => simp [encodeBase64, String.length]
  | case3 b1 b2 => simp [encodeBase64, String.length]
  | case4 b1 b2 b3 rest ih =>
    show (⟨_⟩ ++ encodeBase64 rest : String).length = _
    rw [String.length_append, ih]
    show 4 + 4 * ((rest.length + 2) / 3) = 4 * ((rest.length + 3 + 2) / 3)
    omega

theorem comma_ne_base64Char (i : ℕ) : ',' ≠ base64Char i := by
  unfold base64Char
  by_cases h : i < 64
  · interval_cases i <;> decide
  · rw [List.getD_eq_default]
    · decide
    · show base64Chars.length ≤ i
      have : base64Chars.length = 64 := by decide
      omega

theorem comma_not_mem_encodeBase64 (bs : List ℕ) :
    ',' ∉ (encodeBase64 bs).data := by
  induction bs using encodeBase64.induct with
  | case1 => simp [encodeBase64]
  | case2 b1 =>
    simp only [encodeBase64, List.mem_cons, List.not_mem_nil]
    push_neg
    exact ⟨comma_ne_base64Char _, comma_ne_base64Char _, by decide, by decide, by simp⟩
  | case3 b1 b2 =>
    simp only [encodeBase64, List.mem_cons, List.not_mem_nil]
    push_neg
    exact ⟨comma_ne_base64Char _, comma_ne_base64Char _, comma_ne_base64Char _,
      by decide, by simp⟩
  | case4 b1 b2 b3 rest ih =>
    show ',' ∉ (⟨_⟩ ++ encodeBase64 rest : String).data
    rw [String.data_append]
    simp only [List.mem_append, List.mem_cons, List.not_mem_nil]
    push_neg
    exact ⟨⟨comma_ne_base64Char _, comma_ne_base64Char _, comma_ne_base64Char _,
      comma_ne_base64Char _, by simp⟩, ih⟩

theorem splitCommaAux_of_not_mem (q : List Char) :
    ∀ acc, ',' ∉ q → splitCommaAux q acc = [acc.reverse ++ q] := by
  induction q with
  | nil => intro acc _; simp [splitCommaAux]
  | cons c cs ih =>
    intro acc h
    have hc : c ≠ ',' := fun hc => h (by simp [hc])
    have hcs : ',' ∉ cs := fun hm => h (List.mem_cons_of_mem _ hm)
    simp only [splitCommaAux, if_neg hc]
    rw [ih (c :: acc) hcs]
    simp

theorem splitCommaAux_append (p : List Char) :
    ∀ q acc, ',' ∉ p →
      splitCommaAux (p ++ ',' :: q) acc = (acc.reverse ++ p) :: splitCommaAux q [] := by
  induction p with
  | nil => intro q acc _; simp [splitCommaAux]
  | cons c cs ih =>
    intro q acc h
    have hc : c ≠ ',' := fun hc => h (by simp [hc])
    have hcs : ',' ∉ cs := fun hm => h (List.mem_cons_of_mem _ hm)
    simp only [List.cons_append, splitCommaAux, if_neg hc, List.append_eq]
    rw [ih q (c :: acc) hcs]
    simp

theorem jsSplitComma_dataURI (s : String) (h : ',' ∉ s.data) :
    jsSplitComma ("data:image/png;base64," ++ s) = ["data:image/png;base64", s] := by
  unfold jsSplitComma
  rw [String.data_append]
  have hdr : ("data:image/png;base64," : String).data =
      ("data:image/png;base64" : String).data ++ [','] := by decide
  rw [hdr, List.append_assoc, List.singleton_append]
  rw [splitCommaAux_append _ _ _ (by decide)]
  rw [splitCommaAux_of_not_mem _ _ h]
  simp only [List.reverse_nil, List.nil_append, List.map_cons, List.map_nil]

theorem isPrefixOf_append_list (p t : List Char) : p.isPrefixOf (p ++ t) = true := by
  rw [List.isPrefixOf_iff_prefix]
  exact List.prefix_append p t

/-! ## Orchestrator theorems -/

theorem cleanup_removes (env : Env) (temp mask : String) (fs : List String)
    (h1 : env.unlinkTempFails = false) (h2 : env.unlinkMaskFails = false) :
    temp ∉ cleanup env temp mask fs ∧ mask ∉ cleanup env temp mask fs := by
  unfold cleanup
  simp only [h1, h2, Bool.false_eq_true, if_false]
  split_ifs with hA hB hC <;>
    simp_all [List.mem_filter]

/-- C1: whenever the unlink operations of the backing store succeed,
neither staged artifact path is present on the backing store after `POST`
returns, whatever the outcome of every pipeline step (normal completion or a
throw injected at any stage) and whatever the store held before. -/
theorem POST_releases_staged_files (env : Env) (fs : List String)
    (h1 : env.unlinkTempFails = false) (h2 : env.unlinkMaskFails = false) :
    tempFilePath env ∉ (POST env fs).2 ∧ maskFilePath env ∉ (POST env fs).2 :=
  cleanup_removes env (tempFilePath env) (maskFilePath env)
    (tryBlock env (tempFilePath env) (maskFilePath env) fs).2 h1 h2

/-- Witness for `POST_releases_staged_files`: a request whose edit call
throws, on a store already holding an unrelated file. -/
theorem POST_releases_staged_files_witness :
    (Env.mk "/tmp" 5 6 (.ok ⟨some "img", some "image/png"⟩) (.ok ()) (.ok ()) (.ok ())
        (.ok ()) (.error (.err ⟨"boom", none, none⟩)) (.error .value)
        false false).unlinkTempFails = false ∧
    (Env.mk "/tmp" 5 6 (.ok ⟨some "img", some "image/png"⟩) (.ok ()) (.ok ()) (.ok ())
        (.ok ()) (.error (.err ⟨"boom", none, none⟩)) (.error .value)
        false false).unlinkMaskFails = false ∧
    (tempFilePath (Env.mk "/tmp" 5 6 (.ok ⟨some "img", some "image/png"⟩) (.ok ()) (.ok ())
        (.ok ()) (.ok ()) (.error (.err ⟨"boom", none, none⟩)) (.error .value) false false) ∉
      (POST (Env.mk "/tmp" 5 6 (.ok ⟨some "img", some "image/png"⟩) (.ok ()) (.ok ())
        (.ok ()) (.ok ()) (.error (.err ⟨"boom", none, none⟩)) (.error .value) false false)
        ["/tmp/other.png"]).2 ∧
     maskFilePath (Env.mk "/tmp" 5 6 (.ok ⟨some "img", some "image/png"⟩) (.ok ()) (.ok ())
        (.ok ()) (.ok ()) (.error (.err ⟨"boom", none, none⟩)) (.error .value) false false) ∉
      (POST (Env.mk "/tmp" 5 6 (.ok ⟨some "img", some "image/png"⟩) (.ok ()) (.ok ())
        (.ok ()) (.ok ()) (.error (.err ⟨"boom", none, none⟩)) (.error .value) false false)
        ["/tmp/other.png"]).2) :=
  ⟨rfl, rfl,
    POST_releases_staged_files
      (Env.mk "/tmp" 5 6 (.ok ⟨some "img", some "image/png"⟩) (.ok ()) (.ok ()) (.ok ())
        (.ok ()) (.error (.err ⟨"boom", none, none⟩)) (.error .value) false false)
      ["/tmp/other.png"] rfl rfl⟩

/-- C7: the response built by the request pipeline (success payload or
structured error) is returned unchanged whether or not either `unlinkSync`
in the cleanup block throws: a failure inside the finally block never alters
the primary outcome of the handler. -/
theorem POST_response_independent_of_cleanup (env : Env) (fs : List String) (b1 b2 : Bool) :
    (POST { env with unlinkTempFails := b1, unlinkMaskFails := b2 } fs).1 =
      (POST env fs).1 := by
  cases env
  rfl

/-- C9: the entire behavior of the handler (response and final store
contents) is unchanged when only the `imageType` field of the body differs: the
handler destructures only `image` from the parsed body. -/
theorem POST_ignores_imageType (env : Env) (fs : List String)
    (img t1 t2 : Option String) :
    POST { env with parseResult := .ok ⟨img, t1⟩ } fs =
      POST { env with parseResult := .ok ⟨img, t2⟩ } fs := by
  cases env
  rfl

/-- C10: a request whose body fails to parse as JSON, or parses but lacks the
`image` field, never faults the handler: the thrown error is caught and
mapped to a structured `{ error }` JSON response, with status 500 when the
error carries no status of its own. -/
theorem POST_bad_request_mapped (env : Env) (fs : List String) :
    (∀ e : JsError, env.parseResult = .error (.err e) →
      e.code ≠ some "billing_hard_limit_reached" → e.status = none →
      (POST env fs).1 = ⟨.failure e.message, 500⟩) ∧
    (∀ body : RequestBody, env.parseResult = .ok body → body.image = none →
      (POST env fs).1 = ⟨.failure undefinedLengthError.message, 500⟩) := by
  constructor
  · intro e hparse hcode hstatus
    simp only [POST, tryBlock, hparse, catchHandler, if_neg hcode, hstatus, Option.getD]
  · intro body hparse himg
    simp only [POST, tryBlock, hparse, himg, catchHandler, undefinedLengthError]
    rfl

/-- Witness for `POST_bad_request_mapped`: a concrete JSON syntax error and a
concrete body missing `image`, each mapped to a structured 500. -/
theorem POST_bad_request_mapped_witness :
    (POST (Env.mk "/tmp" 5 6
        (.error (.err ⟨"Unexpected end of JSON input", none, none⟩)) (.ok ()) (.ok ())
        (.ok ()) (.ok ()) (.error .value) (.error .value) false false) []).1 =
      ⟨.failure "Unexpected end of JSON input", 500⟩ ∧
    (POST (Env.mk "/tmp" 5 6
        (.ok ⟨none, some "image/png"⟩) (.ok ()) (.ok ())
        (.ok ()) (.ok ()) (.error .value) (.error .value) false false) []).1 =
      ⟨.failure undefinedLengthError.message, 500⟩ :=
  ⟨(POST_bad_request_mapped (Env.mk "/tmp" 5 6
        (.error (.err ⟨"Unexpected end of JSON input", none, none⟩)) (.ok ()) (.ok ())
        (.ok ()) (.ok ()) (.error .value) (.error .value) false false) []).1
      ⟨"Unexpected end of JSON input", none, none⟩ rfl (by simp) rfl,
   (POST_bad_request_mapped (Env.mk "/tmp" 5 6
        (.ok ⟨none, some "image/png"⟩) (.ok ()) (.ok ())
        (.ok ()) (.ok ()) (.error .value) (.error .value) false false) []).2
      ⟨none, some "image/png"⟩ rfl rfl⟩

/-- C2: when the edit call throws an `Error`, the handler responds 402 with
the retry-later message if the `code` of the error marks the billing hard
limit, and otherwise echoes the error message with its upstream `status` when
present and 500 when absent. -/
theorem POST_edit_failure_mapping (env : Env) (fs : List String) (body : RequestBody)
    (img : String) (e : JsError)
    (hparse : env.parseResult = .ok body) (himg : body.image = some img)
    (hconv : env.convertResult = .ok ()) (hmask : env.maskResult = .ok ())
    (hwt : env.writeTempResult = .ok ()) (hwm : env.writeMaskResult = .ok ())
    (hedit : env.editResult = .error (.err e)) :
    (POST env fs).1 =
      if e.code = some "billing_hard_limit_reached" then
        ⟨.failure "OpenAI API billing limit reached. Please try again later.", 402⟩
      else
        ⟨.failure e.message, e.status.getD 500⟩ := by
  simp only [POST, tryBlock, hparse, himg, hconv, hmask, hwt, hwm, hedit, catchHandler]

/-- Witness for `POST_edit_failure_mapping`: a billing-limit error becomes a
402 with the retry-later message; a plain upstream error with status 503
keeps its status; one with no status becomes a 500. -/
theorem POST_edit_failure_mapping_witness :
    (POST (Env.mk "/tmp" 5 6 (.ok ⟨some "img", some "image/png"⟩) (.ok ()) (.ok ())
        (.ok ()) (.ok ())
        (.error (.err ⟨"Billing hard limit has been reached",
          some "billing_hard_limit_reached", some 400⟩))
        (.error .value) false false) []).1 =
      ⟨.failure "OpenAI API billing limit reached. Please try again later.", 402⟩ ∧
    (POST (Env.mk "/tmp" 5 6 (.ok ⟨some "img", some "image/png"⟩) (.ok ()) (.ok ())
        (.ok ()) (.ok ())
        (.error (.err ⟨"upstream unavailable", none, some 503⟩))
        (.error .value) false false) []).1 =
      ⟨.failure "upstream unavailable", 503⟩ ∧
    (POST (Env.mk "/tmp" 5 6 (.ok ⟨some "img", some "image/png"⟩) (.ok ()) (.ok ())
        (.ok ()) (.ok ())
        (.error (.err ⟨"socket hang up", none, none⟩))
        (.error .value) false false) []).1 =
      ⟨.failure "socket hang up", 500⟩ := by
  refine ⟨?_, ?_, ?_⟩
  · have h := POST_edit_failure_mapping (Env.mk "/tmp" 5 6
      (.ok ⟨some "img", some "image/png"⟩) (.ok ()) (.ok ()) (.ok ()) (.ok ())
      (.error (.err ⟨"Billing hard limit has been reached",
        some "billing_hard_limit_reached", some 400⟩))
      (.error .value) false false) [] ⟨some "img", some "image/png"⟩ "img"
      ⟨"Billing hard limit has been reached", some "billing_hard_limit_reached", some 400⟩
      rfl rfl rfl rfl rfl rfl rfl
    simpa using h
  · have h := POST_edit_failure_mapping (Env.mk "/tmp" 5 6
      (.ok ⟨some "img", some "image/png"⟩) (.ok ()) (.ok ()) (.ok ()) (.ok ())
      (.error (.err ⟨"upstream unavailable", none, some 503⟩))
      (.error .value) false false) [] ⟨some "img", some "image/png"⟩ "img"
      ⟨"upstream unavailable", none, some 503⟩
      rfl rfl rfl rfl rfl rfl rfl
    simpa using h
  · have h := POST_edit_failure_mapping (Env.mk "/tmp" 5 6
      (.ok ⟨some "img", some "image/png"⟩) (.ok ()) (.ok ()) (.ok ()) (.ok ())
      (.error (.err ⟨"socket hang up", none, none⟩))
      (.error .value) false false) [] ⟨some "img", some "image/png"⟩ "img"
      ⟨"socket hang up", none, none⟩
      rfl rfl rfl rfl rfl rfl rfl
    simpa using h

/-- C8: when the edit call succeeds but its response carries no URL in the
first `data` entry, the handler throws `No image URL received`, which the
catch block surfaces as a structured 500 failure; no success payload is
produced. -/
theorem POST_empty_result (env : Env) (fs : List String) (body : RequestBody)
    (img : String) (response : EditResponse)
    (hparse : env.parseResult = .ok body) (himg : body.image = some img)
    (hconv : env.convertResult = .ok ()) (hmask : env.maskResult = .ok ())
    (hwt : env.writeTempResult = .ok ()) (hwm : env.writeMaskResult = .ok ())
    (hedit : env.editResult = .ok response)
    (hurl : (response.data.get? 0).bind EditDatum.url = none) :
    (POST env fs).1 = ⟨.failure "No image URL received", 500⟩ ∧
    ∀ s, (POST env fs).1.body ≠ RespBody.success s := by
  have h : (POST env fs).1 = ⟨.failure "No image URL received", 500⟩ := by
    simp only [POST, tryBlock, hparse, himg, hconv, hmask, hwt, hwm, hedit, hurl,
      catchHandler]
    rfl
  refine ⟨h, ?_⟩
  intro s
  rw [h]
  simp

/-- Witness for `POST_empty_result`: an edit response whose only entry has a
null `url`. -/
theorem POST_empty_result_witness :
    (POST (Env.mk "/tmp" 5 6 (.ok ⟨some "img", some "image/png"⟩) (.ok ()) (.ok ())
        (.ok ()) (.ok ()) (.ok ⟨[⟨none⟩]⟩) (.error .value) false false) []).1 =
      ⟨.failure "No image URL received", 500⟩ :=
  (POST_empty_result (Env.mk "/tmp" 5 6 (.ok ⟨some "img", some "image/png"⟩) (.ok ())
      (.ok ()) (.ok ()) (.ok ()) (.ok ⟨[⟨none⟩]⟩) (.error .value) false false) []
    ⟨some "img", some "image/png"⟩ "img" ⟨[⟨none⟩]⟩
    rfl rfl rfl rfl rfl rfl rfl rfl).1

/-- C6: once the pipeline reaches the result fetch, (a) an unsuccessful
transport response makes `fetchImageAsBase64` throw its fetch error, which
surfaces as a structured 500; (b) an empty payload is rejected
(`Generated image is empty`, 500); (c) a nonempty payload whose byte length
is at most 72 — exactly the payloads whose padded base64 is shorter than 100
characters — is rejected as corrupted with 500; (d) any payload of at least
73 bytes is accepted and returned, status 200, as a
`data:image/png;base64,` data-URI of the fetched bytes. -/
theorem POST_fetch_validation (env : Env) (fs : List String) (body : RequestBody)
    (img : String) (response : EditResponse) (url : String) (r : FetchResponse)
    (hparse : env.parseResult = .ok body) (himg : body.image = some img)
    (hconv : env.convertResult = .ok ()) (hmask : env.maskResult = .ok ())
    (hwt : env.writeTempResult = .ok ()) (hwm : env.writeMaskResult = .ok ())
    (hedit : env.editResult = .ok response)
    (hurl : (response.data.get? 0).bind EditDatum.url = some url)
    (hfetch : env.fetchResult = .ok r) :
    (r.ok = false →
      fetchImageAsBase64 r =
        .error (.err ⟨"Failed to fetch image: " ++ toString r.status ++ " " ++ r.statusText,
          none, none⟩) ∧
      (POST env fs).1 =
        ⟨.failure ("Failed to fetch image: " ++ toString r.status ++ " " ++ r.statusText),
          500⟩) ∧
    (r.ok = true → r.bytes.length = 0 →
      (POST env fs).1 = ⟨.failure "Generated image is empty", 500⟩) ∧
    (r.ok = true → 0 < r.bytes.length → r.bytes.length ≤ 72 →
      (POST env fs).1 = ⟨.failure "Invalid or corrupted image data received", 500⟩) ∧
    (r.ok = true → 73 ≤ r.bytes.length →
      (POST env fs).1 =
        ⟨.success ("data:image/png;base64," ++ encodeBase64 r.bytes), 200⟩) := by
  refine ⟨?_, ?_, ?_, ?_⟩
  · intro hok
    have hf : fetchImageAsBase64 r =
        .error (.err ⟨"Failed to fetch image: " ++ toString r.status ++ " " ++ r.statusText,
          none, none⟩) := by
      simp only [fetchImageAsBase64, hok, Bool.false_eq_true, if_false]
    refine ⟨hf, ?_⟩
    simp only [POST, tryBlock, hparse, himg, hconv, hmask, hwt, hwm, hedit, hurl, hfetch,
      hf, catchHandler]
    rfl
  · intro hok hlen0
    have hf : fetchImageAsBase64 r =
        .error (.err ⟨"Generated image is empty", none, none⟩) := by
      simp only [fetchImageAsBase64, hok, if_true]
      rw [if_pos]
      rw [encodeBase64_length, hlen0]
    simp only [POST, tryBlock, hparse, himg, hconv, hmask, hwt, hwm, hedit, hurl, hfetch,
      hf, catchHandler]
    rfl
  · intro hok hpos hle
    have hf : fetchImageAsBase64 r =
        .ok ("data:image/png;base64," ++ encodeBase64 r.bytes) := by
      simp only [fetchImageAsBase64, hok, if_true]
      rw [if_neg]
      rw [encodeBase64_length]
      omega
    have hsplit : (jsSplitComma ("data:image/png;base64," ++ encodeBase64 r.bytes)).get? 1 =
        some (encodeBase64 r.bytes) := by
      rw [jsSplitComma_dataURI _ (comma_not_mem_encodeBase64 r.bytes)]
      rfl
    have hlt : (encodeBase64 r.bytes).length < 100 := by
      rw [encodeBase64_length]
      omega
    simp only [POST, tryBlock, hparse, himg, hconv, hmask, hwt, hwm, hedit, hurl, hfetch,
      hf, String.data_append, isPrefixOf_append_list, if_true, hsplit, if_pos hlt,
      catchHandler]
    rfl
  · intro hok hge
    have hf : fetchImageAsBase64 r =
        .ok ("data:image/png;base64," ++ encodeBase64 r.bytes) := by
      simp only [fetchImageAsBase64, hok, if_true]
      rw [if_neg]
      rw [encodeBase64_length]
      omega
    have hsplit : (jsSplitComma ("data:image/png;base64," ++ encodeBase64 r.bytes)).get? 1 =
        some (encodeBase64 r.bytes) := by
      rw [jsSplitComma_dataURI _ (comma_not_mem_encodeBase64 r.bytes)]
      rfl
    have hge' : ¬ (encodeBase64 r.bytes).length < 100 := by
      rw [encodeBase64_length]
      omega
    simp only [POST, tryBlock, hparse, himg, hconv, hmask, hwt, hwm, hedit, hurl, hfetch,
      hf, String.data_append, isPrefixOf_append_list, if_true, hsplit, if_neg hge',
      catchHandler]

/-- Witness for `POST_fetch_validation`: a failed transport (status 502)
surfaces as a 500 fetch failure, and a 75-byte payload is accepted as a
data-URI with status 200. -/
theorem POST_fetch_validation_witness :
    (POST (Env.mk "/tmp" 5 6 (.ok ⟨some "img", some "image/png"⟩) (.ok ()) (.ok ())
        (.ok ()) (.ok ()) (.ok ⟨[⟨some "https://oai.example/out.png"⟩]⟩)
        (.ok ⟨false, 502, "Bad Gateway", []⟩) false false) []).1 =
      ⟨.failure ("Failed to fetch image: " ++ toString (502 : ℕ) ++ " " ++ "Bad Gateway"),
        500⟩ ∧
    (POST (Env.mk "/tmp" 5 6 (.ok ⟨some "img", some "image/png"⟩) (.ok ()) (.ok ())
        (.ok ()) (.ok ()) (.ok ⟨[⟨some "https://oai.example/out.png"⟩]⟩)
        (.ok ⟨true, 200, "OK", List.replicate 75 7⟩) false false) []).1 =
      ⟨.success ("data:image/png;base64," ++ encodeBase64 (List.replicate 75 7)), 200⟩ :=
  ⟨((POST_fetch_validation (Env.mk "/tmp" 5 6 (.ok ⟨some "img", some "image/png"⟩)
      (.ok ()) (.ok ()) (.ok ()) (.ok ()) (.ok ⟨[⟨some "https://oai.example/out.png"⟩]⟩)
      (.ok ⟨false, 502, "Bad Gateway", []⟩) false false) []
      ⟨some "img", some "image/png"⟩ "img" ⟨[⟨some "https://oai.example/out.png"⟩]⟩
      "https://oai.example/out.png" ⟨false, 502, "Bad Gateway", []⟩
      rfl rfl rfl rfl rfl rfl rfl rfl rfl).1 rfl).2,
   (POST_fetch_validation (Env.mk "/tmp" 5 6 (.ok ⟨some "img", some "image/png"⟩)
      (.ok ()) (.ok ()) (.ok ()) (.ok ()) (.ok ⟨[⟨some "https://oai.example/out.png"⟩]⟩)
      (.ok ⟨true, 200, "OK", List.replicate 75 7⟩) false false) []
      ⟨some "img", some "image/png"⟩ "img" ⟨[⟨some "https://oai.example/out.png"⟩]⟩
      "https://oai.example/out.png" ⟨true, 200, "OK", List.replicate 75 7⟩
      rfl rfl rfl rfl rfl rfl rfl rfl rfl).2.2.2 rfl (by simp)⟩

/-! ## Staged path naming (C5) -/

theorem tempFilePath_now_eq (e1 e2 : Env) (hdir : e1.tmpdir = e2.tmpdir)
    (h : tempFilePath e1 = tempFilePath e2) : e1.now1 = e2.now1 := by
  have hd := congrArg String.data h
  unfold tempFilePath pathJoin at hd
  simp only [String.data_append, hdir, List.append_assoc, List.cons_append,
    List.nil_append, List.append_cancel_left_eq, List.cons.injEq, true_and,
    List.append_cancel_right_eq] at hd
  exact natRepr_injective _ _ (congrArg String.mk hd)

theorem maskFilePath_now_eq (e1 e2 : Env) (hdir : e1.tmpdir = e2.tmpdir)
    (h : maskFilePath e1 = maskFilePath e2) : e1.now2 = e2.now2 := by
  have hd := congrArg String.data h
  unfold maskFilePath pathJoin at hd
  simp only [String.data_append, hdir, List.append_assoc, List.cons_append,
    List.nil_append, List.append_cancel_left_eq, List.cons.injEq, true_and,
    List.append_cancel_right_eq] at hd
  exact natRepr_injective _ _ (congrArg String.mk hd)

theorem tempFilePath_ne_maskFilePath (e1 e2 : Env) (hdir : e1.tmpdir = e2.tmpdir) :
    tempFilePath e1 ≠ maskFilePath e2 := by
  intro h
  have hd := congrArg String.data h
  unfold tempFilePath maskFilePath pathJoin at hd
  simp only [String.data_append, hdir, List.append_assoc, List.cons_append,
    List.nil_append, List.append_cancel_left_eq, List.cons.injEq] at hd
  exact absurd hd.2.1 (by decide)

/-- C5 refuted as stated: two requests that differ (different uploaded
image) but whose `Date.now()` reads fall in the same millisecond receive
identical staged artifact locations — `Date.now()` naming is not
collision-resistant across concurrent requests. -/
theorem stagedPaths_collision :
    Env.mk "/tmp" 1000 1000 (.ok ⟨some "imageA", some "image/png"⟩) (.ok ()) (.ok ())
        (.ok ()) (.ok ()) (.error .value) (.error .value) false false ≠
      Env.mk "/tmp" 1000 1000 (.ok ⟨some "imageB", some "image/png"⟩) (.ok ()) (.ok ())
        (.ok ()) (.ok ()) (.error .value) (.error .value) false false ∧
    tempFilePath (Env.mk "/tmp" 1000 1000 (.ok ⟨some "imageA", some "image/png"⟩) (.ok ())
        (.ok ()) (.ok ()) (.ok ()) (.error .value) (.error .value) false false) =
      tempFilePath (Env.mk "/tmp" 1000 1000 (.ok ⟨some "imageB", some "image/png"⟩) (.ok ())
        (.ok ()) (.ok ()) (.ok ()) (.error .value) (.error .value) false false) ∧
    maskFilePath (Env.mk "/tmp" 1000 1000 (.ok ⟨some "imageA", some "image/png"⟩) (.ok ())
        (.ok ()) (.ok ()) (.ok ()) (.error .value) (.error .value) false false) =
      maskFilePath (Env.mk "/tmp" 1000 1000 (.ok ⟨some "imageB", some "image/png"⟩) (.ok ())
        (.ok ()) (.ok ()) (.ok ()) (.error .value) (.error .value) false false) :=
  ⟨by decide, rfl, rfl⟩

/-- C5 (amended): staged locations are distinct only as far as the
`Date.now()` discriminators are — for two requests of one process (same
temp directory) whose corresponding `Date.now()` reads differ, all four
staged paths are pairwise distinct (the `room-` and `mask-` stems separate
the two artifact kinds unconditionally). -/
theorem stagedPaths_distinct (e1 e2 : Env) (hdir : e1.tmpdir = e2.tmpdir)
    (h1 : e1.now1 ≠ e2.now1) (h2 : e1.now2 ≠ e2.now2) :
    tempFilePath e1 ≠ tempFilePath e2 ∧ maskFilePath e1 ≠ maskFilePath e2 ∧
    tempFilePath e1 ≠ maskFilePath e2 ∧ maskFilePath e1 ≠ tempFilePath e2 := by
  refine ⟨?_, ?_, tempFilePath_ne_maskFilePath e1 e2 hdir, ?_⟩
  · intro h
    exact h1 (tempFilePath_now_eq e1 e2 hdir h)
  · intro h
    exact h2 (maskFilePath_now_eq e1 e2 hdir h)
  · intro h
    exact tempFilePath_ne_maskFilePath e2 e1 hdir.symm h.symm

/-- Witness for `stagedPaths_distinct`: two same-process requests observing
millisecond timestamps 1000/1001 and 1002/1003. -/
theorem stagedPaths_distinct_witness :
    (Env.mk "/tmp" 1000 1001 (.ok ⟨some "imageA", some "image/png"⟩) (.ok ()) (.ok ())
        (.ok ()) (.ok ()) (.error .value) (.error .value) false false).tmpdir =
      (Env.mk "/tmp" 1002 1003 (.ok ⟨some "imageB", some "image/png"⟩) (.ok ()) (.ok ())
        (.ok ()) (.ok ()) (.error .value) (.error .value) false false).tmpdir ∧
    (tempFilePath (Env.mk "/tmp" 1000 1001 (.ok ⟨some "imageA", some "image/png"⟩) (.ok ())
        (.ok ()) (.ok ()) (.ok ()) (.error .value) (.error .value) false false) ≠
      tempFilePath (Env.mk "/tmp" 1002 1003 (.ok ⟨some "imageB", some "image/png"⟩) (.ok ())
        (.ok ()) (.ok ()) (.ok ()) (.error .value) (.error .value) false false) ∧
     maskFilePath (Env.mk "/tmp" 1000 1001 (.ok ⟨some "imageA", some "image/png"⟩) (.ok ())
        (.ok ()) (.ok ()) (.ok ()) (.error .value) (.error .value) false false) ≠
      maskFilePath (Env.mk "/tmp" 1002 1003 (.ok ⟨some "imageB", some "image/png"⟩) (.ok ())
        (.ok ()) (.ok ()) (.ok ()) (.error .value) (.error .value) false false) ∧
     tempFilePath (Env.mk "/tmp" 1000 1001 (.ok ⟨some "imageA", some "image/png"⟩) (.ok ())
        (.ok ()) (.ok ()) (.ok ()) (.error .value) (.error .value) false false) ≠
      maskFilePath (Env.mk "/tmp" 1002 1003 (.ok ⟨some "imageB", some "image/png"⟩) (.ok ())
        (.ok ()) (.ok ()) (.ok ()) (.error .value) (.error .value) false false) ∧
     maskFilePath (Env.mk "/tmp" 1000 1001 (.ok ⟨some "imageA", some "image/png"⟩) (.ok ())
        (.ok ()) (.ok ()) (.ok ()) (.error .value) (.error .value) false false) ≠
      tempFilePath (Env.mk "/tmp" 1002 1003 (.ok ⟨some "imageB", some "image/png"⟩) (.ok ())
        (.ok ()) (.ok ()) (.ok ()) (.error .value) (.error .value) false false)) :=
  ⟨rfl,
    stagedPaths_distinct
      (Env.mk "/tmp" 1000 1001 (.ok ⟨some "imageA", some "image/png"⟩) (.ok ()) (.ok ())
        (.ok ()) (.ok ()) (.error .value) (.error .value) false false)
      (Env.mk "/tmp" 1002 1003 (.ok ⟨some "imageB", some "image/png"⟩) (.ok ()) (.ok ())
        (.ok ()) (.ok ()) (.error .value) (.error .value) false false)
      rfl (by decide) (by decide)⟩

end RoomPlanter
